import Mathlib

/-!
# Verification of the version-bump and publish-tag decision logic of `funish/basis`

This file shallowly embeds the two decision procedures of the repository —
`calculateNewVersion` (src/packages/basis/src/modules/version.ts) and
`determinePublishTag` / `publishPackage` (src/packages/basis/src/modules/publish.ts) —
together with the parts of the external `semver` library they invoke
(`semver.valid`, `semver.prerelease`, `semver.inc`), and proves the stated
properties about them.

Conventions of the embedding:
* JavaScript strings are Lean `String`s; optional string fields are `Option String`,
  and JS truthiness of such a field (`if (options.version)`) is `strTruthy`,
  which is false for both `none` (undefined) and `some ""`.  Where the
  specification says an option "is set" / "is given" / "is provided", this is
  formalised as the source's own truthiness test.
* Effectful code (`execSync`, manifest writes, `consola.warn`) is embedded as
  explicit event traces, with an oracle `execOk : String → Bool` standing for
  the success or failure of each shell command.
* Thrown errors are `Except.error` values carrying the error classification
  and the literal message text.
-/

/-! ## Character classes and small string utilities (used by the semver model) -/

def isDigitChar (c : Char) : Bool := '0' ≤ c && c ≤ '9'

def isAlphaChar (c : Char) : Bool :=
  ('a' ≤ c && c ≤ 'z') || ('A' ≤ c && c ≤ 'Z')

/-- The semver identifier character class `[0-9A-Za-z-]`. -/
def isIdentChar (c : Char) : Bool := isDigitChar c || isAlphaChar c || c == '-'

/-- Decimal value of a digit string (digits already checked by the caller). -/
def digitsToNat (cs : List Char) : Nat :=
  cs.foldl (fun a c => a * 10 + (c.toNat - 48)) 0

/-- JavaScript `Number.MAX_SAFE_INTEGER`. -/
def maxSafeInteger : Nat := 2 ^ 53 - 1

/-- Structural splitter: `splitOnChar sep cs` mirrors JS `s.split(sep)` for a
single-character separator.  `splitOnChar '.' "a.b"` = `[['a'],['b']]`. -/
def splitOnChar (sep : Char) : List Char → List (List Char)
  | [] => [[]]
  | c :: rest =>
    let r := splitOnChar sep rest
    if c == sep then [] :: r
    else
      match r with
      | [] => [[c]]
      | g :: gs => (c :: g) :: gs

/-- Intercalate a single-character separator, mirroring JS `parts.join(sep)`. -/
def joinCharsWith (sep : Char) : List (List Char) → List Char
  | [] => []
  | [x] => x
  | x :: xs => x ++ sep :: joinCharsWith sep xs

/-- Mirrors JS `parts.join(sep)` on strings. -/
def joinWith (sep : String) : List String → String
  | [] => ""
  | [x] => x
  | x :: xs => x ++ sep ++ joinWith sep xs

/-- Mirrors JS `s.startsWith(p)` (structural, unlike `String.startsWith`). -/
def strStartsWith (s p : String) : Bool :=
  List.isPrefixOf p.toList s.toList

/-- JS truthiness of an optional string: `undefined` and `""` are falsy. -/
def strTruthy (o : Option String) : Bool :=
  match o with
  | some s => !(s == "")
  | none => false

/-- JS `a || b` for an optional string `a` (absent and empty are falsy). -/
def orElseStr (o : Option String) (d : String) : String :=
  match o with
  | some s => if s == "" then d else s
  | none => d

/-! ## The external semver library (modelled)

The repository consumes `semver` as an external collaborator; the functions it
uses (`valid`, `prerelease`, `inc`) are modelled here after node-semver's
strict-mode behaviour (the library is invoked without a `loose` option). -/

/-- A prerelease identifier as stored by node-semver's parser: an all-digit
identifier whose value is below `MAX_SAFE_INTEGER` is coerced to a number,
anything else stays a string. -/
inductive PreId where
  | num (n : Nat)
  | str (s : String)
deriving DecidableEq, Repr

/-- A parsed semantic version.  Build metadata is validated during parsing but
not stored: node-semver's `valid`, `prerelease` and `inc` all operate on the
build-free `version` field. -/
structure SemVer where
  major : Nat
  minor : Nat
  patch : Nat
  prerelease : List PreId
deriving DecidableEq, Repr

/-- The numeric-part pattern `0|[1-9]\d*` of the semver grammar. -/
def isNumericPart (cs : List Char) : Bool :=
  !cs.isEmpty && cs.all isDigitChar && (cs == ['0'] || !(cs.headD ' ' == '0'))

/-- The prerelease-identifier pattern `0|[1-9]\d*|\d*[a-zA-Z-][a-zA-Z0-9-]*`:
nonempty, identifier characters only, and no leading zero when all digits. -/
def isPreIdentPart (cs : List Char) : Bool :=
  !cs.isEmpty && cs.all isIdentChar && (!(cs.all isDigitChar) || isNumericPart cs)

/-- The build-identifier pattern `[0-9a-zA-Z-]+`. -/
def isBuildIdentPart (cs : List Char) : Bool :=
  !cs.isEmpty && cs.all isIdentChar

/-- node-semver stores an all-digit prerelease identifier below
`MAX_SAFE_INTEGER` as a number, everything else as a string. -/
def classifyPreId (cs : List Char) : PreId :=
  if !cs.isEmpty && cs.all isDigitChar && digitsToNat cs < maxSafeInteger then
    PreId.num (digitsToNat cs)
  else PreId.str (String.mk cs)

/-- Parse the build-free core `MAJOR.MINOR.PATCH[-PRERELEASE]`.  The
`MAJOR.MINOR.PATCH` part contains no `-`, so everything from the first `-` on
is the prerelease segment. -/
def parseVersionCore (cs : List Char) : Option SemVer :=
  match splitOnChar '-' cs with
  | [] => none
  | mmp :: rest =>
    match splitOnChar '.' mmp with
    | [a, b, c] =>
      if isNumericPart a && isNumericPart b && isNumericPart c then
        if digitsToNat a ≤ maxSafeInteger && digitsToNat b ≤ maxSafeInteger
            && digitsToNat c ≤ maxSafeInteger then
          if rest.isEmpty then
            some ⟨digitsToNat a, digitsToNat b, digitsToNat c, []⟩
          else
            let ids := splitOnChar '.' (joinCharsWith '-' rest)
            if ids.all isPreIdentPart then
              some ⟨digitsToNat a, digitsToNat b, digitsToNat c, ids.map classifyPreId⟩
            else none
        else none
      else none
    | _ => none

/-- node-semver's strict parse: at most 256 characters, an optional leading
`v`, a core version, and optional `+`-separated build metadata (validated,
then discarded). -/
def parseSemVer (s : String) : Option SemVer :=
  if s.length > 256 then none
  else
    let cs :=
      match s.toList with
      | 'v' :: rest => rest
      | l => l
    match splitOnChar '+' cs with
    | [core] => parseVersionCore core
    | [core, build] =>
      if (splitOnChar '.' build).all isBuildIdentPart then parseVersionCore core
      else none
    | _ => none

/-- `semver.valid(s)` used as a boolean (the repository only tests it for
truthiness). -/
def semverValid (s : String) : Bool := (parseSemVer s).isSome

/-- `semver.prerelease(s)`: the prerelease components, or `null` when the
string does not parse or has no prerelease segment. -/
def prereleaseOf (s : String) : Option (List PreId) :=
  match parseSemVer s with
  | some v => if v.prerelease.isEmpty then none else some v.prerelease
  | none => none

def renderPreId : PreId → String
  | .num n => Nat.repr n
  | .str s => s

/-- node-semver's `format()`: `M.m.p` with a `-`-joined prerelease segment. -/
def SemVer.format (v : SemVer) : String :=
  Nat.repr v.major ++ "." ++ Nat.repr v.minor ++ "." ++ Nat.repr v.patch ++
    (if v.prerelease.isEmpty then ""
     else "-" ++ joinWith "." (v.prerelease.map renderPreId))

/-! ### node-semver's `inc`

The repository calls `semver.inc(old, releaseType, preid)` where `releaseType`
is one of the string literals of `semver.ReleaseType`; that string-literal
union is embedded as the inductive `ReleaseType` below, with `ReleaseType.render`
giving back the literal. -/

inductive ReleaseType where
  | major | minor | patch | premajor | preminor | prepatch | prerelease
deriving DecidableEq, Repr

def ReleaseType.render : ReleaseType → String
  | .major => "major"
  | .minor => "minor"
  | .patch => "patch"
  | .premajor => "premajor"
  | .preminor => "preminor"
  | .prepatch => "prepatch"
  | .prerelease => "prerelease"

/-- The source's dispatch test
`releaseType === "prerelease" || releaseType.startsWith("pre")`. -/
def relIsPre (r : ReleaseType) : Bool :=
  r.render == "prerelease" || strStartsWith r.render "pre"

/-- Whether JS `isNaN(x)` is false for a string: `Number(x)` parses.  The
strings reaching this test are prerelease identifiers, drawn from
`[0-9A-Za-z-]`, so the relevant numeric forms are decimal integers with an
optional sign and exponent, radix literals, and `Infinity`. -/
def decDigits (cs : List Char) : Bool := !cs.isEmpty && cs.all isDigitChar

def expPart : List Char → Bool
  | '-' :: rest => decDigits rest
  | rest => decDigits rest

def decimalLitAux : List Char → Bool → Bool
  | [], seen => seen
  | c :: rest, seen =>
    if isDigitChar c then decimalLitAux rest true
    else if (c == 'e' || c == 'E') && seen then expPart rest
    else false

def isHexDigit (c : Char) : Bool :=
  isDigitChar c || ('a' ≤ c && c ≤ 'f') || ('A' ≤ c && c ≤ 'F')

def radixLit : List Char → Bool
  | '0' :: c :: rest =>
    if c == 'x' || c == 'X' then !rest.isEmpty && rest.all isHexDigit
    else if c == 'b' || c == 'B' then !rest.isEmpty && rest.all (fun d => d == '0' || d == '1')
    else if c == 'o' || c == 'O' then !rest.isEmpty && rest.all (fun d => '0' ≤ d && d ≤ '7')
    else false
  | _ => false

def unsignedNumberLit (cs : List Char) : Bool :=
  decimalLitAux cs false || radixLit cs || cs == "Infinity".toList

def jsNumberParses (cs : List Char) : Bool :=
  match cs with
  | '-' :: rest => decimalLitAux rest false || rest == "Infinity".toList
  | _ => unsignedNumberLit cs

/-- JS `isNaN(prerelease[1])`: true for a missing component or a string that
`Number` cannot parse; false for every numeric component. -/
def preIdIsNaN : Option PreId → Bool
  | none => true
  | some (.num _) => false
  | some (.str s) => !(jsNumberParses s.toList)

/-- node-semver's `compareIdentifiers(a, b) === 0` for a stored prerelease
component `a` and the string identifier `b`: numeric comparison when both are
all-digit, JS `===` otherwise (a number is never `===` a string). -/
def compareIdentifiersEq (x : PreId) (id2 : String) : Bool :=
  match x with
  | .num n => if decDigits id2.toList then n == digitsToNat id2.toList else false
  | .str s =>
    if decDigits s.toList && decDigits id2.toList then
      digitsToNat s.toList == digitsToNat id2.toList
    else s == id2

/-- The `while (--i >= 0)` loop of `inc('pre')`: increment the last numeric
prerelease component, or report that none exists. -/
def bumpLastNumericAux : List PreId → Option (List PreId)
  | [] => none
  | .num n :: rest => some (.num (n + 1) :: rest)
  | .str s :: rest => (bumpLastNumericAux rest).map (PreId.str s :: ·)

def bumpLastNumeric (l : List PreId) : Option (List PreId) :=
  (bumpLastNumericAux l.reverse).map List.reverse

/-- node-semver's `inc('pre', identifier, identifierBase)` with the default
`identifierBase` (so `base = 0` and the `identifierBase === false` throws are
unreachable).  A falsy (absent or empty) identifier skips the identifier
block, exactly like the JS `if (identifier)`. -/
def incPre (preid : Option String) (v : SemVer) : SemVer :=
  let pre :=
    if v.prerelease.isEmpty then [PreId.num 0]
    else
      match bumpLastNumeric v.prerelease with
      | some l => l
      | none => v.prerelease ++ [PreId.num 0]
  let pre :=
    match preid with
    | some pid =>
      if pid == "" then pre
      else if compareIdentifiersEq (pre.headD (PreId.num 0)) pid then
        if preIdIsNaN pre[1]? then [PreId.str pid, PreId.num 0] else pre
      else [PreId.str pid, PreId.num 0]
    | none => pre
  { v with prerelease := pre }

/-- `inc('patch')`: drop a prerelease segment, only bump when there was none. -/
def incPatch (v : SemVer) : SemVer :=
  if v.prerelease.isEmpty then { v with patch := v.patch + 1, prerelease := [] }
  else { v with prerelease := [] }

/-- `inc('minor')`. -/
def incMinor (v : SemVer) : SemVer :=
  if !(v.patch == 0) || v.prerelease.isEmpty then
    { v with minor := v.minor + 1, patch := 0, prerelease := [] }
  else { v with patch := 0, prerelease := [] }

/-- `inc('major')`. -/
def incMajor (v : SemVer) : SemVer :=
  if !(v.minor == 0) || !(v.patch == 0) || v.prerelease.isEmpty then
    { v with major := v.major + 1, minor := 0, patch := 0, prerelease := [] }
  else { v with minor := 0, patch := 0, prerelease := [] }

def SemVer.incBy (v : SemVer) (rel : ReleaseType) (preid : Option String) : SemVer :=
  match rel with
  | .major => incMajor v
  | .minor => incMinor v
  | .patch => incPatch v
  | .premajor =>
    incPre preid { v with prerelease := [], patch := 0, minor := 0, major := v.major + 1 }
  | .preminor =>
    incPre preid { v with prerelease := [], patch := 0, minor := v.minor + 1 }
  | .prepatch => incPre preid (incPatch { v with prerelease := [] })
  | .prerelease =>
    if v.prerelease.isEmpty then incPre preid (incPatch v)
    else incPre preid v

/-- `semver.inc(s, rel, preid)`: `null` when `s` does not parse, otherwise the
formatted incremented version. -/
def semverInc (s : String) (rel : ReleaseType) (preid : Option String) : Option String :=
  match parseSemVer s with
  | none => none
  | some v => some (SemVer.format (v.incBy rel preid))

/-! ## The version module (src/packages/basis/src/modules/version.ts) -/

/-- `VersionOptions` (src/packages/basis/src/types): the fields consumed by
`calculateNewVersion` and `updatePackageVersion`. -/
structure VersionOptions where
  version : Option String := none
  major : Bool := false
  minor : Bool := false
  prerelease : Bool := false
  preid : Option String := none
  message : Option String := none
deriving DecidableEq, Repr

/-- `VersionConfig`: the fields consumed by the version module.  The source's
`tagPrefix` field is embedded as `tagPrefixOpt`. -/
structure VersionConfig where
  prereleaseId : Option String := none
  autoCommit : Bool := false
  autoTag : Bool := false
  autoPush : Bool := false
  commitMessage : Option String := none
  tagPrefixOpt : Option String := none
deriving DecidableEq, Repr

/-- The three `throw new Error(...)` sites of `calculateNewVersion`, carrying
the offending version string.  The specification's `InvalidVersionError`
covers the first two, its `VersionComputationError` the third. -/
inductive VersionError where
  | invalidExplicit (v : String)
  | invalidCurrent (v : String)
  | incFailed (v : String)
deriving DecidableEq, Repr

/-- The literal message text of each throw site. -/
def VersionError.message : VersionError → String
  | .invalidExplicit v =>
    "Invalid version format: " ++ v ++
      ". Please use semantic versioning format (e.g., 1.0.0, 2.1.0-alpha.1)"
  | .invalidCurrent v =>
    "Invalid current version format: " ++ v ++
      ". Please fix version in package.json to use semantic versioning format (e.g., 1.0.0)"
  | .incFailed v =>
    "Failed to calculate new version from " ++ v ++
      ". Please check your version increment options."

/-- Whether an error is an `InvalidVersionError` in the specification's
taxonomy. -/
def VersionError.isInvalidVersion : VersionError → Bool
  | .invalidExplicit _ => true
  | .invalidCurrent _ => true
  | .incFailed _ => false

/-- The offending version string carried by an error. -/
def VersionError.offending : VersionError → String
  | .invalidExplicit v => v
  | .invalidCurrent v => v
  | .incFailed v => v

/-- The source's `const preid = options.preid || (currentPrerelease &&
typeof currentPrerelease[0] === "string" ? currentPrerelease[0] : null) ||
versionConfig.prereleaseId || "edge"`. -/
def preHeadString : Option (List PreId) → Option String
  | some (PreId.str s :: _) => some s
  | _ => none

def preidOf (oldVersion : String) (options : VersionOptions)
    (versionConfig : VersionConfig) : String :=
  orElseStr options.preid
    (orElseStr (preHeadString (prereleaseOf oldVersion))
      (orElseStr versionConfig.prereleaseId "edge"))

/-- The source's release-type ladder: `major` > `minor` > (`prerelease` flag ?
`prerelease`/`prepatch`) > (`prerelease`/`patch`). -/
def releaseTypeOf (oldVersion : String) (options : VersionOptions) : ReleaseType :=
  if options.major then .major
  else if options.minor then .minor
  else if options.prerelease then
    if (prereleaseOf oldVersion).isSome then .prerelease else .prepatch
  else
    if (prereleaseOf oldVersion).isSome then .prerelease else .patch

/-- `calculateNewVersion(oldVersion, options, versionConfig)`. -/
def calculateNewVersion (oldVersion : String) (options : VersionOptions)
    (versionConfig : VersionConfig) : Except VersionError String :=
  if strTruthy options.version then
    if semverValid (options.version.getD "") then Except.ok (options.version.getD "")
    else Except.error (VersionError.invalidExplicit (options.version.getD ""))
  else if !semverValid oldVersion then
    Except.error (VersionError.invalidCurrent oldVersion)
  else
    match
      (if relIsPre (releaseTypeOf oldVersion options) then
        semverInc oldVersion (releaseTypeOf oldVersion options)
          (some (preidOf oldVersion options versionConfig))
      else semverInc oldVersion (releaseTypeOf oldVersion options) none)
    with
    | some result => Except.ok result
    | none => Except.error (VersionError.incFailed oldVersion)

/-- Effects of `updatePackageVersion`: the manifest write and the git
commands (with their observed success) and warnings. -/
inductive VEvent where
  | writeManifest (version : String)
  | gitExec (cmd : String) (ok : Bool)
  | warn (msg : String)
deriving DecidableEq, Repr

inductive UpdateError where
  | noVersion
  | calcErr (e : VersionError)
deriving DecidableEq, Repr

structure VersionUpdateResult where
  oldVersion : String
  newVersion : String
  tagName : Option String := none
deriving DecidableEq, Repr

/-- JS `s.replace(pat, rep)` for a string pattern: first occurrence only. -/
def replaceFirstAux (pat rep : List Char) : List Char → List Char
  | [] => []
  | c :: rest =>
    if List.isPrefixOf pat (c :: rest) then rep ++ (c :: rest).drop pat.length
    else c :: replaceFirstAux pat rep rest

def jsReplaceFirst (s pat rep : String) : String :=
  String.mk (replaceFirstAux pat.toList rep.toList s.toList)

/-- `options.message || versionConfig.commitMessage?.replace("\x7bversion\x7d",
newVersion) || "chore: release v" + newVersion`. -/
def commitMessageOf (options : VersionOptions) (versionConfig : VersionConfig)
    (newVersion : String) : String :=
  orElseStr options.message
    (orElseStr
      (versionConfig.commitMessage.map (fun m => jsReplaceFirst m "\x7bversion\x7d" newVersion))
      ("chore: release v" ++ newVersion))

/-- `updatePackageVersion`, from the point where the manifest version has been
read: `manifestVersion` is `packageJson.version` and `execOk` tells whether
each `execSync` git command succeeds.  Config loading and the manifest read
are I/O performed before any modelled behaviour.  The returned event list is
in program order. -/
def updatePackageVersion (manifestVersion : Option String) (options : VersionOptions)
    (versionConfig : VersionConfig) (execOk : String → Bool) :
    List VEvent × Except UpdateError VersionUpdateResult :=
  if !strTruthy manifestVersion then ([], Except.error UpdateError.noVersion)
  else
    match calculateNewVersion (manifestVersion.getD "") options versionConfig with
    | Except.error e => ([], Except.error (UpdateError.calcErr e))
    | Except.ok newVersion =>
      let commitEvents :=
        if versionConfig.autoCommit then
          let commitCmd :=
            "git commit -m \"" ++ commitMessageOf options versionConfig newVersion ++ "\""
          if execOk "git add package.json" then
            if execOk commitCmd then
              [VEvent.gitExec "git add package.json" true, VEvent.gitExec commitCmd true]
            else
              [VEvent.gitExec "git add package.json" true, VEvent.gitExec commitCmd false,
               VEvent.warn "Failed to commit changes:"]
          else
            [VEvent.gitExec "git add package.json" false, VEvent.warn "Failed to commit changes:"]
        else []
      let tagName := orElseStr versionConfig.tagPrefixOpt "v" ++ newVersion
      let tagOut :=
        if versionConfig.autoTag then
          if execOk ("git tag " ++ tagName) then
            ([VEvent.gitExec ("git tag " ++ tagName) true], some tagName)
          else
            ([VEvent.gitExec ("git tag " ++ tagName) false,
              VEvent.warn "Failed to create git tag:"], none)
        else ([], none)
      let pushEvents :=
        if versionConfig.autoPush then
          if execOk "git push" then
            if versionConfig.autoTag then
              if execOk "git push --tags" then
                [VEvent.gitExec "git push" true, VEvent.gitExec "git push --tags" true]
              else
                [VEvent.gitExec "git push" true, VEvent.gitExec "git push --tags" false,
                 VEvent.warn "Failed to push changes:"]
            else [VEvent.gitExec "git push" true]
          else [VEvent.gitExec "git push" false, VEvent.warn "Failed to push changes:"]
        else []
      (VEvent.writeManifest newVersion :: (commitEvents ++ tagOut.1 ++ pushEvents),
       Except.ok ⟨manifestVersion.getD "", newVersion, tagOut.2⟩)

/-! ## The publish module (src/packages/basis/src/modules/publish.ts)

The source file contains two revisions of this module; the specification and
the claims follow the revision with the extracted `determinePublishTag`
helper, whose tag logic is identical to the inline variant. -/

/-- `PublishOptions`: the fields consumed by `determinePublishTag` and
`publishPackage`. -/
structure PublishOptions where
  tag : Option String := none
  stable : Bool := false
  latest : Bool := false
  dryRun : Bool := false
  access : Option String := none
  registry : Option String := none
deriving DecidableEq, Repr

/-- `PublishConfig`: the fields consumed by the modelled behaviour. -/
structure PublishConfig where
  stableTag : Option String := none
  defaultTag : Option String := none
  access : Option String := none
  registry : Option String := none
  autoGitPush : Bool := false
  createGitTag : Bool := false
deriving DecidableEq, Repr

/-- JS truthiness of `prerelease[0]` in `determinePublishTag`: the number `0`
and an empty string are falsy.  A truthy numeric component is returned as the
(TS-cast) tag and is rendered in decimal wherever it is used. -/
def jsTruthyHead : List PreId → Option String
  | PreId.num n :: _ => if n == 0 then none else some (Nat.repr n)
  | PreId.str s :: _ => if s == "" then none else some s
  | [] => none

/-- `determinePublishTag(version, options, config)`. -/
def determinePublishTag (version : String) (options : PublishOptions)
    (config : PublishConfig) : String :=
  if strTruthy options.tag then options.tag.getD ""
  else if options.stable || options.latest then orElseStr config.stableTag "latest"
  else
    match prereleaseOf version with
    | some pre =>
      match jsTruthyHead pre with
      | some t => t
      | none => orElseStr config.defaultTag "edge"
    | none => orElseStr config.stableTag "latest"

/-! ### The runtime type of the publish tag

`determinePublishTag` is declared in TS to return `string`, but the value it
returns for a prerelease version is `prerelease[0] as string` — a cast, not a
conversion — and node-semver stores an all-digit prerelease component as a JS
*number*.  So at runtime the publish tag is a string or a number, and the
`publishTag !== defaultTag` guard of `publishPackage` is type-sensitive: a
numeric tag is never strictly equal to the (string) default tag.
`JsTagVal` embeds that runtime value; `determinePublishTagVal` is the
value-level reading of `determinePublishTag`, and
`determinePublishTag_eq_render` below proves that `determinePublishTag` is
exactly its rendering into every string position (command interpolation). -/

inductive JsTagVal where
  | str (s : String)
  | num (n : Nat)
deriving DecidableEq, Repr

/-- JS string interpolation of the tag value (a number renders in decimal). -/
def JsTagVal.render : JsTagVal → String
  | .str s => s
  | .num n => Nat.repr n

/-- JS strict equality `tagVal === d` against a string `d`: a number is never
strictly equal to a string. -/
def JsTagVal.strictEqStr : JsTagVal → String → Bool
  | .str s, d => s == d
  | .num _, _ => false

/-- JS truthiness of `prerelease[0]`, keeping the runtime value. -/
def jsTruthyHeadVal : List PreId → Option JsTagVal
  | PreId.num n :: _ => if n == 0 then none else some (JsTagVal.num n)
  | PreId.str s :: _ => if s == "" then none else some (JsTagVal.str s)
  | [] => none

/-- `determinePublishTag(version, options, config)` at the level of runtime
values: every branch except the truthy-prerelease-head one produces a
string. -/
def determinePublishTagVal (version : String) (options : PublishOptions)
    (config : PublishConfig) : JsTagVal :=
  if strTruthy options.tag then JsTagVal.str (options.tag.getD "")
  else if options.stable || options.latest then
    JsTagVal.str (orElseStr config.stableTag "latest")
  else
    match prereleaseOf version with
    | some pre =>
      match jsTruthyHeadVal pre with
      | some t => t
      | none => JsTagVal.str (orElseStr config.defaultTag "edge")
    | none => JsTagVal.str (orElseStr config.stableTag "latest")

/-- Effects of `publishPackage`: executed shell commands (with their observed
success) and warnings. -/
inductive PubEvent where
  | exec (cmd : String) (ok : Bool)
  | warn (msg : String)
deriving DecidableEq, Repr

/-- The values `publishPackage` obtains from its own I/O before the modelled
behaviour starts: the manifest's `name` and (already validated) `version`, and
the detected package manager (`pmName` is `packageManager?.name`, `pmCommand`
is `packageManager?.command || "npm"`). -/
structure PublishCtx where
  packageName : String
  version : String
  pmName : Option String := none
  pmCommand : String := "npm"
deriving DecidableEq, Repr

/-- The object returned by `publishPackage`.  Its `publishTag` field holds the
runtime tag value: TS types it `string`, but a numeric prerelease head flows
through the `as string` cast unchanged. -/
structure PublishResult where
  packageName : String
  version : String
  publishTag : JsTagVal
  dryRun : Bool
deriving DecidableEq, Repr

/-- The `publishArgs` array built by `publishPackage`. -/
def publishArgsOf (publishTag : String) (options : PublishOptions)
    (config : PublishConfig) : List String :=
  ["publish", "--tag", publishTag, "--access",
    orElseStr options.access (orElseStr config.access "public")]
  ++ (if strTruthy options.registry || strTruthy config.registry then
        ["--registry", orElseStr options.registry (orElseStr config.registry "")]
      else [])
  ++ (if options.dryRun then ["--dry-run"] else [])

/-- The `publishCommand` string `pmCommand + " " + publishArgs.join(" ")`. -/
def publishCommandOf (ctx : PublishCtx) (options : PublishOptions)
    (config : PublishConfig) : String :=
  ctx.pmCommand ++ " " ++
    joinWith " " (publishArgsOf (determinePublishTag ctx.version options config) options config)

/-- The secondary dist-tag assignment command: yarn uses `tag add`, every
other package manager `dist-tag add`. -/
def distTagCommandOf (ctx : PublishCtx) (defaultTag : String) : String :=
  if ctx.pmName == some "yarn" then
    ctx.pmCommand ++ " tag add " ++ ctx.packageName ++ "@" ++ ctx.version ++ " " ++ defaultTag
  else
    ctx.pmCommand ++ " dist-tag add " ++ ctx.packageName ++ "@" ++ ctx.version ++ " " ++ defaultTag

/-- The secondary-tag section of `publishPackage`: the source guard is
`if (publishTag !== defaultTag)`, JS strict inequality on the runtime tag
value, so a numeric publish tag (never strictly equal to the string
`defaultTag`) always runs the secondary command, even when its decimal
rendering coincides with `defaultTag`.  A failure of the command produces a
warning and nothing else. -/
def distTagEvents (ctx : PublishCtx) (config : PublishConfig) (publishTag : JsTagVal)
    (execOk : String → Bool) : List PubEvent :=
  let defaultTag := orElseStr config.defaultTag "edge"
  if publishTag.strictEqStr defaultTag then []
  else
    let cmd := distTagCommandOf ctx defaultTag
    if execOk cmd then [PubEvent.exec cmd true]
    else [PubEvent.exec cmd false, PubEvent.warn ("Failed to add " ++ defaultTag ++ " tag:")]

/-- `runPostPublishActions(cwd, config)`. -/
def runPostPublishActions (config : PublishConfig) (execOk : String → Bool) : List PubEvent :=
  if config.autoGitPush then
    if execOk "git push" then
      if config.createGitTag then
        if execOk "git push --tags" then
          [PubEvent.exec "git push" true, PubEvent.exec "git push --tags" true]
        else
          [PubEvent.exec "git push" true, PubEvent.exec "git push --tags" false,
           PubEvent.warn "Failed to push changes:"]
      else [PubEvent.exec "git push" true]
    else [PubEvent.exec "git push" false, PubEvent.warn "Failed to push changes:"]
  else []

/-- `publishPackage`, from the point where config, manifest and package
manager have been read and the pre-publish checks have passed (each earlier
step either throws — aborting before any publish effect — or only produces
values carried in `ctx`).  On a failed publish command the error is rethrown;
afterwards, outside dry-run mode, the secondary dist-tag assignment and the
post-publish actions run, both non-fatally. -/
def publishPackage (ctx : PublishCtx) (options : PublishOptions) (config : PublishConfig)
    (execOk : String → Bool) : List PubEvent × Except String PublishResult :=
  let publishTag := determinePublishTagVal ctx.version options config
  let publishCommand := publishCommandOf ctx options config
  if execOk publishCommand then
    if options.dryRun then
      ([PubEvent.exec publishCommand true],
       Except.ok ⟨ctx.packageName, ctx.version, publishTag, options.dryRun⟩)
    else
      (PubEvent.exec publishCommand true ::
        (distTagEvents ctx config publishTag execOk ++ runPostPublishActions config execOk),
       Except.ok ⟨ctx.packageName, ctx.version, publishTag, options.dryRun⟩)
  else
    ([PubEvent.exec publishCommand false], Except.error "Failed to publish package:")

/-! ## Helper lemmas -/

theorem semverValid_exists {s : String} (h : semverValid s = true) :
    ∃ v, parseSemVer s = some v := by
  unfold semverValid at h
  cases hp : parseSemVer s with
  | none => rw [hp] at h; simp at h
  | some v => exact ⟨v, rfl⟩

theorem semverInc_eq {s : String} {v : SemVer} (hp : parseSemVer s = some v)
    (rel : ReleaseType) (preid : Option String) :
    semverInc s rel preid = some (SemVer.format (v.incBy rel preid)) := by
  unfold semverInc
  rw [hp]

theorem releaseTypeOf_default_stable {old : String} {o : VersionOptions}
    (hma : o.major = false) (hmi : o.minor = false) (hpr : o.prerelease = false)
    (hnone : prereleaseOf old = none) :
    releaseTypeOf old o = ReleaseType.patch := by
  unfold releaseTypeOf
  rw [hma, hmi, hpr, hnone]
  rfl

theorem releaseTypeOf_default_pre {old : String} {o : VersionOptions}
    (hma : o.major = false) (hmi : o.minor = false) (hpr : o.prerelease = false)
    {pre : List PreId} (hsome : prereleaseOf old = some pre) :
    releaseTypeOf old o = ReleaseType.prerelease := by
  unfold releaseTypeOf
  rw [hma, hmi, hpr, hsome]
  rfl

/-- With a non-truthy explicit version and a valid current version,
`calculateNewVersion` reduces to its increment dispatch. -/
theorem calculateNewVersion_dispatch {old : String} {o : VersionOptions}
    {cfg : VersionConfig} (hx : strTruthy o.version = false)
    (hv : semverValid old = true) :
    calculateNewVersion old o cfg =
      (match
        (if relIsPre (releaseTypeOf old o) then
          semverInc old (releaseTypeOf old o) (some (preidOf old o cfg))
        else semverInc old (releaseTypeOf old o) none)
      with
      | some result => Except.ok result
      | none => Except.error (VersionError.incFailed old)) := by
  unfold calculateNewVersion
  rw [hx, hv]
  rfl

theorem jsTruthyHead_eq_render (pre : List PreId) :
    jsTruthyHead pre = (jsTruthyHeadVal pre).map JsTagVal.render := by
  cases pre with
  | nil => rfl
  | cons x rest =>
    cases x with
    | num n =>
      cases h : (n == 0) with
      | true => simp [jsTruthyHead, jsTruthyHeadVal, h]
      | false => simp [jsTruthyHead, jsTruthyHeadVal, h, JsTagVal.render]
    | str s =>
      cases h : (s == "") with
      | true => simp [jsTruthyHead, jsTruthyHeadVal, h]
      | false => simp [jsTruthyHead, jsTruthyHeadVal, h, JsTagVal.render]

/-- `determinePublishTag` is the string rendering of the runtime tag value:
the two definitions agree wherever the tag is interpolated into a string. -/
theorem determinePublishTag_eq_render (v : String) (o : PublishOptions)
    (c : PublishConfig) :
    determinePublishTag v o c = (determinePublishTagVal v o c).render := by
  unfold determinePublishTag determinePublishTagVal
  by_cases h1 : strTruthy o.tag = true
  · simp [h1, JsTagVal.render]
  · have h1f : strTruthy o.tag = false := by simpa using h1
    by_cases h2 : (o.stable || o.latest) = true
    · simp [h1f, h2, JsTagVal.render]
    · have h2f : (o.stable || o.latest) = false := by simpa using h2
      cases hpre : prereleaseOf v with
      | none => simp [h1f, h2f, hpre, JsTagVal.render]
      | some pre =>
        have hh := jsTruthyHead_eq_render pre
        cases hv : jsTruthyHeadVal pre with
        | none =>
          rw [hv] at hh
          simp [h1f, h2f, hpre, hh, hv, JsTagVal.render]
        | some t =>
          rw [hv] at hh
          simp [h1f, h2f, hpre, hh, hv, JsTagVal.render]

/-! ## Claims -/

/-- C1: for every valid `oldVersion` and a request with no explicit version
and no major/minor/prerelease flags, `calculateNewVersion` returns
`semver.inc(oldVersion, "patch")` when `oldVersion` has no prerelease
segment, and `semver.inc(oldVersion, "prerelease", effectivePreid)` when it
has one (the prerelease chain is continued rather than jumping to a stable
patch). -/
theorem claim_C1 (old : String) (o : VersionOptions) (cfg : VersionConfig)
    (hv : semverValid old = true) (hx : strTruthy o.version = false)
    (hma : o.major = false) (hmi : o.minor = false) (hpr : o.prerelease = false) :
    (prereleaseOf old = none →
      ∃ r, semverInc old ReleaseType.patch none = some r ∧
        calculateNewVersion old o cfg = Except.ok r) ∧
    (∀ pre, prereleaseOf old = some pre →
      ∃ r, semverInc old ReleaseType.prerelease (some (preidOf old o cfg)) = some r ∧
        calculateNewVersion old o cfg = Except.ok r) := by
  obtain ⟨v, hp⟩ := semverValid_exists hv
  constructor
  · intro hnone
    refine ⟨SemVer.format (v.incBy ReleaseType.patch none), semverInc_eq hp _ _, ?_⟩
    rw [calculateNewVersion_dispatch hx hv,
      releaseTypeOf_default_stable hma hmi hpr hnone]
    have hrel : relIsPre ReleaseType.patch = false := by decide
    rw [hrel]
    simp only [Bool.false_eq_true, if_false, semverInc_eq hp]
  · intro pre hsome
    refine ⟨SemVer.format (v.incBy ReleaseType.prerelease (some (preidOf old o cfg))),
      semverInc_eq hp _ _, ?_⟩
    rw [calculateNewVersion_dispatch hx hv,
      releaseTypeOf_default_pre hma hmi hpr hsome]
    have hrel : relIsPre ReleaseType.prerelease = true := by decide
    rw [hrel]
    simp only [if_true, semverInc_eq hp]

theorem claim_C1_witness :
    (semverValid "1.0.0" = true ∧ strTruthy (none : Option String) = false) ∧
    ((prereleaseOf "1.0.0" = none →
      ∃ r, semverInc "1.0.0" ReleaseType.patch none = some r ∧
        calculateNewVersion "1.0.0" {} {} = Except.ok r) ∧
    (∀ pre, prereleaseOf "1.0.0" = some pre →
      ∃ r, semverInc "1.0.0" ReleaseType.prerelease
          (some (preidOf "1.0.0" {} {})) = some r ∧
        calculateNewVersion "1.0.0" {} {} = Except.ok r)) :=
  ⟨⟨by decide, rfl⟩, claim_C1 "1.0.0" {} {} (by decide) rfl rfl rfl rfl⟩

/-- C2: a truthy `options.version` that is a valid semantic version is
returned verbatim whatever `oldVersion` is (no monotonicity or other check);
a truthy invalid one fails with the invalid-version error. -/
theorem claim_C2 (old : String) (o : VersionOptions) (cfg : VersionConfig)
    (s : String) (hs : o.version = some s) (hne : s ≠ "") :
    (semverValid s = true → calculateNewVersion old o cfg = Except.ok s) ∧
    (semverValid s = false →
      calculateNewVersion old o cfg = Except.error (VersionError.invalidExplicit s) ∧
      VersionError.isInvalidVersion (VersionError.invalidExplicit s) = true) := by
  have htr : strTruthy (some s) = true := by
    unfold strTruthy
    simp [hne]
  constructor
  · intro hvv
    simp [calculateNewVersion, hs, htr, hvv]
  · intro hvv
    refine ⟨?_, rfl⟩
    simp [calculateNewVersion, hs, htr, hvv]

theorem claim_C2_witness :
    ("9.9.9" : String) ≠ "" ∧
    ((semverValid "9.9.9" = true →
      calculateNewVersion "2.0.0" { version := some "9.9.9" } {} = Except.ok "9.9.9") ∧
    (semverValid "9.9.9" = false →
      calculateNewVersion "2.0.0" { version := some "9.9.9" } {} =
        Except.error (VersionError.invalidExplicit "9.9.9") ∧
      VersionError.isInvalidVersion (VersionError.invalidExplicit "9.9.9") = true)) :=
  ⟨by decide, claim_C2 "2.0.0" { version := some "9.9.9" } {} "9.9.9" rfl (by decide)⟩

/-- C3: with no truthy explicit version the release type follows the fixed
priority major > minor > prerelease-aware default (`prerelease` when the
current version is a prerelease, `prepatch` under the prerelease flag,
`patch` otherwise), with the documented concrete values. -/
theorem claim_C3 (old : String) (o : VersionOptions) (cfg : VersionConfig)
    (hx : strTruthy o.version = false) (hv : semverValid old = true) :
    ((o.major = true →
      ∃ r, semverInc old ReleaseType.major none = some r ∧
        calculateNewVersion old o cfg = Except.ok r) ∧
    (o.major = false → o.minor = true →
      ∃ r, semverInc old ReleaseType.minor none = some r ∧
        calculateNewVersion old o cfg = Except.ok r) ∧
    (o.major = false → o.minor = false → o.prerelease = true →
      ∃ r, semverInc old
          (if (prereleaseOf old).isSome then ReleaseType.prerelease
           else ReleaseType.prepatch) (some (preidOf old o cfg)) = some r ∧
        calculateNewVersion old o cfg = Except.ok r)) ∧
    (calculateNewVersion "1.0.0" { major := true } {} = Except.ok "2.0.0" ∧
    calculateNewVersion "1.0.0" { minor := true } {} = Except.ok "1.1.0" ∧
    calculateNewVersion "1.0.0" {} {} = Except.ok "1.0.1" ∧
    calculateNewVersion "1.0.0" { prerelease := true } {} = Except.ok "1.0.1-edge.0") := by
  obtain ⟨v, hp⟩ := semverValid_exists hv
  refine ⟨⟨?_, ?_, ?_⟩, ⟨rfl, rfl, rfl, rfl⟩⟩
  · intro hma
    have hrel : releaseTypeOf old o = ReleaseType.major := by
      unfold releaseTypeOf
      rw [hma]
      rfl
    refine ⟨SemVer.format (v.incBy ReleaseType.major none), semverInc_eq hp _ _, ?_⟩
    rw [calculateNewVersion_dispatch hx hv, hrel]
    have hpre : relIsPre ReleaseType.major = false := by decide
    rw [hpre]
    simp only [Bool.false_eq_true, if_false, semverInc_eq hp]
  · intro hma hmi
    have hrel : releaseTypeOf old o = ReleaseType.minor := by
      unfold releaseTypeOf
      rw [hma, hmi]
      rfl
    refine ⟨SemVer.format (v.incBy ReleaseType.minor none), semverInc_eq hp _ _, ?_⟩
    rw [calculateNewVersion_dispatch hx hv, hrel]
    have hpre : relIsPre ReleaseType.minor = false := by decide
    rw [hpre]
    simp only [Bool.false_eq_true, if_false, semverInc_eq hp]
  · intro hma hmi hpr
    have hrel : releaseTypeOf old o =
        (if (prereleaseOf old).isSome then ReleaseType.prerelease
         else ReleaseType.prepatch) := by
      unfold releaseTypeOf
      rw [hma, hmi, hpr]
      rfl
    cases hps : (prereleaseOf old).isSome with
    | true =>
      rw [hps] at hrel
      simp only [if_true] at hrel
      refine ⟨SemVer.format (v.incBy ReleaseType.prerelease (some (preidOf old o cfg))),
        ?_, ?_⟩
      · simp [semverInc_eq hp]
      · rw [calculateNewVersion_dispatch hx hv, hrel]
        have hpre : relIsPre ReleaseType.prerelease = true := by decide
        rw [hpre]
        simp only [if_true, semverInc_eq hp]
    | false =>
      rw [hps] at hrel
      simp only [Bool.false_eq_true, if_false] at hrel
      refine ⟨SemVer.format (v.incBy ReleaseType.prepatch (some (preidOf old o cfg))),
        ?_, ?_⟩
      · simp [semverInc_eq hp]
      · rw [calculateNewVersion_dispatch hx hv, hrel]
        have hpre : relIsPre ReleaseType.prepatch = true := by decide
        rw [hpre]
        simp only [if_true, semverInc_eq hp]

theorem claim_C3_witness :
    (strTruthy (none : Option String) = false ∧ semverValid "1.0.0" = true) ∧
    (calculateNewVersion "1.0.0" { major := true } {} = Except.ok "2.0.0" ∧
    calculateNewVersion "1.0.0" { minor := true } {} = Except.ok "1.1.0" ∧
    calculateNewVersion "1.0.0" {} {} = Except.ok "1.0.1" ∧
    calculateNewVersion "1.0.0" { prerelease := true } {} = Except.ok "1.0.1-edge.0") :=
  ⟨⟨rfl, by decide⟩, (claim_C3 "1.0.0" { major := true } {} rfl (by decide)).2⟩

theorem orElseStr_truthy {o : Option String} {s : String} (h : o = some s)
    (hne : s ≠ "") (d : String) : orElseStr o d = s := by
  rw [h]
  unfold orElseStr
  simp [hne]

theorem orElseStr_falsy {o : Option String} (h : strTruthy o = false) (d : String) :
    orElseStr o d = d := by
  unfold orElseStr
  cases o with
  | none => rfl
  | some s =>
    unfold strTruthy at h
    simp at h
    simp [h]

/-- C4: the effective prerelease identifier takes `options.preid` first, else
the existing leading string prerelease component of `oldVersion`, else
`versionConfig.prereleaseId`, else the literal `"edge"`; in particular an
explicit preid replaces the existing channel
(`1.0.1-beta.0` + `--prerelease --preid rc` gives `1.0.1-rc.0`). -/
theorem claim_C4 (old : String) (o : VersionOptions) (cfg : VersionConfig) :
    ((∀ p, o.preid = some p → p ≠ "" → preidOf old o cfg = p) ∧
    (strTruthy o.preid = false →
      ∀ s rest, prereleaseOf old = some (PreId.str s :: rest) → s ≠ "" →
        preidOf old o cfg = s) ∧
    (strTruthy o.preid = false → preHeadString (prereleaseOf old) = none →
      preidOf old o cfg = orElseStr cfg.prereleaseId "edge")) ∧
    calculateNewVersion "1.0.1-beta.0" { prerelease := true, preid := some "rc" } {} =
      Except.ok "1.0.1-rc.0" := by
  refine ⟨⟨?_, ?_, ?_⟩, rfl⟩
  · intro p hp hne
    unfold preidOf
    exact orElseStr_truthy hp hne _
  · intro hfalse s rest hpre hne
    unfold preidOf
    rw [orElseStr_falsy hfalse]
    have hh : preHeadString (prereleaseOf old) = some s := by
      rw [hpre]
      rfl
    exact orElseStr_truthy hh hne _
  · intro hfalse hnone
    unfold preidOf
    rw [orElseStr_falsy hfalse, hnone]
    rfl

theorem claim_C4_witness :
    (some "rc" = some "rc" ∧ ("rc" : String) ≠ "") ∧
    (preidOf "1.0.1-beta.0" { prerelease := true, preid := some "rc" } {} = "rc" ∧
    calculateNewVersion "1.0.1-beta.0" { prerelease := true, preid := some "rc" } {} =
      Except.ok "1.0.1-rc.0") :=
  ⟨⟨rfl, by decide⟩,
   (claim_C4 "1.0.1-beta.0" { prerelease := true, preid := some "rc" } {}).1.1 "rc" rfl
     (by decide),
   (claim_C4 "1.0.1-beta.0" { prerelease := true, preid := some "rc" } {}).2⟩

/-- C5: a truthy `options.tag` is returned verbatim by `determinePublishTag`
for every version string and configuration, even when `stable` or `latest`
is also set. -/
theorem claim_C5 (version : String) (o : PublishOptions) (c : PublishConfig)
    (t : String) (ht : o.tag = some t) (hne : t ≠ "") :
    determinePublishTag version o c = t := by
  have htr : strTruthy o.tag = true := by
    rw [ht]
    unfold strTruthy
    simp [hne]
  unfold determinePublishTag
  rw [htr, ht]
  rfl

theorem claim_C5_witness :
    (some "foo" = some "foo" ∧ ("foo" : String) ≠ "") ∧
    determinePublishTag "0.0.1-weird.7"
      { tag := some "foo", stable := true, latest := true } {} = "foo" :=
  ⟨⟨rfl, by decide⟩,
   claim_C5 "0.0.1-weird.7" { tag := some "foo", stable := true, latest := true } {}
     "foo" rfl (by decide)⟩

/-- C6 counterexample: `1.0.0-0` is a prerelease whose leading component (the
number `0`) is obtainable, yet `determinePublishTag` does not return it — the
JS truthiness test treats the number `0` as falsy, so the default-tag
fallback `"edge"` is returned instead of `"0"`. -/
theorem claim_C6_counterexample :
    prereleaseOf "1.0.0-0" = some [PreId.num 0] ∧
    renderPreId (PreId.num 0) = "0" ∧
    determinePublishTag "1.0.0-0" {} {} = "edge" ∧
    ("edge" : String) ≠ "0" :=
  ⟨rfl, rfl, rfl, by decide⟩

/-- C6 (amended): with no truthy explicit tag and no stable/latest flag,
`determinePublishTag` of a version with a prerelease segment returns the
leading prerelease component when that component is truthy (a nonempty
string, or a nonzero number rendered in decimal), and falls back to
`config.defaultTag` / `"edge"` exactly when the leading component is falsy
(the number `0`); a plain stable version yields `config.stableTag` /
`"latest"`, as does a set stable/latest flag. -/
theorem claim_C6_amended (v : String) (o : PublishOptions) (c : PublishConfig)
    (htag : strTruthy o.tag = false) :
    (o.stable = false → o.latest = false →
      (∀ pre, prereleaseOf v = some pre →
        (∀ t, jsTruthyHead pre = some t → determinePublishTag v o c = t) ∧
        (jsTruthyHead pre = none →
          determinePublishTag v o c = orElseStr c.defaultTag "edge")) ∧
      (prereleaseOf v = none →
        determinePublishTag v o c = orElseStr c.stableTag "latest")) ∧
    ((o.stable = true ∨ o.latest = true) →
      determinePublishTag v o c = orElseStr c.stableTag "latest") := by
  constructor
  · intro hs hl
    constructor
    · intro pre hpre
      constructor
      · intro t hhead
        simp [determinePublishTag, htag, hs, hl, hpre, hhead]
      · intro hhead
        simp [determinePublishTag, htag, hs, hl, hpre, hhead]
    · intro hpre
      simp [determinePublishTag, htag, hs, hl, hpre]
  · intro hsl
    cases hsl with
    | inl hs => simp [determinePublishTag, htag, hs]
    | inr hl => simp [determinePublishTag, htag, hl]

theorem claim_C6_witness :
    strTruthy (none : Option String) = false ∧
    determinePublishTag "1.0.0-beta.2" {} {} = "beta" :=
  ⟨rfl,
   (((claim_C6_amended "1.0.0-beta.2" {} {} rfl).1 rfl rfl).1
     [PreId.str "beta", PreId.num 2] rfl).1 "beta" rfl⟩

/-- C7: after a successful non-dry-run publish, the result is a success
whatever the secondary dist-tag call does; the trace is the publish command
followed by the dist-tag section and the post-publish actions; the secondary
dist-tag command runs exactly when the publish tag differs from the default
tag under the source's `publishTag !== defaultTag` (JS strict inequality on
the runtime tag value), and its failure only adds a warning (non-fatal); when
the publish tag strictly equals the default tag no secondary call is made. -/
theorem claim_C7 (ctx : PublishCtx) (o : PublishOptions) (c : PublishConfig)
    (execOk : String → Bool)
    (hpub : execOk (publishCommandOf ctx o c) = true) (hdry : o.dryRun = false) :
    (publishPackage ctx o c execOk).2 =
      Except.ok ⟨ctx.packageName, ctx.version,
        determinePublishTagVal ctx.version o c, false⟩ ∧
    (publishPackage ctx o c execOk).1 =
      PubEvent.exec (publishCommandOf ctx o c) true ::
        (distTagEvents ctx c (determinePublishTagVal ctx.version o c) execOk ++
         runPostPublishActions c execOk) ∧
    ((determinePublishTagVal ctx.version o c).strictEqStr
        (orElseStr c.defaultTag "edge") = false →
      (execOk (distTagCommandOf ctx (orElseStr c.defaultTag "edge")) = true →
        distTagEvents ctx c (determinePublishTagVal ctx.version o c) execOk =
          [PubEvent.exec (distTagCommandOf ctx (orElseStr c.defaultTag "edge")) true]) ∧
      (execOk (distTagCommandOf ctx (orElseStr c.defaultTag "edge")) = false →
        distTagEvents ctx c (determinePublishTagVal ctx.version o c) execOk =
          [PubEvent.exec (distTagCommandOf ctx (orElseStr c.defaultTag "edge")) false,
           PubEvent.warn ("Failed to add " ++ orElseStr c.defaultTag "edge" ++ " tag:")])) ∧
    ((determinePublishTagVal ctx.version o c).strictEqStr
        (orElseStr c.defaultTag "edge") = true →
      distTagEvents ctx c (determinePublishTagVal ctx.version o c) execOk = []) := by
  refine ⟨?_, ?_, ?_, ?_⟩
  · simp [publishPackage, hpub, hdry]
  · simp [publishPackage, hpub, hdry]
  · intro hne
    constructor
    · intro hok
      simp [distTagEvents, hne, hok]
    · intro hfail
      simp [distTagEvents, hne, hfail]
  · intro heq
    simp [distTagEvents, heq]

/-- C7 witness at the type-sensitive input: version `1.0.0-7` with
`publish.defaultTag = "7"` publishes to the numeric tag `7`, which is not
strictly equal to the string `"7"`, so the secondary dist-tag command runs. -/
theorem claim_C7_witness :
    ((fun _ => true : String → Bool)
        (publishCommandOf ⟨"pkg", "1.0.0-7", some "npm", "npm"⟩ {}
          { defaultTag := some "7" }) = true ∧
      PublishOptions.dryRun {} = false) ∧
    ((publishPackage ⟨"pkg", "1.0.0-7", some "npm", "npm"⟩ {} { defaultTag := some "7" }
        (fun _ => true)).2 =
      Except.ok ⟨"pkg", "1.0.0-7",
        determinePublishTagVal "1.0.0-7" {} { defaultTag := some "7" }, false⟩ ∧
    distTagEvents ⟨"pkg", "1.0.0-7", some "npm", "npm"⟩ { defaultTag := some "7" }
        (determinePublishTagVal "1.0.0-7" {} { defaultTag := some "7" }) (fun _ => true) =
      [PubEvent.exec "npm dist-tag add pkg@1.0.0-7 7" true]) :=
  ⟨⟨rfl, rfl⟩,
   (claim_C7 ⟨"pkg", "1.0.0-7", some "npm", "npm"⟩ {} { defaultTag := some "7" }
     (fun _ => true) rfl rfl).1,
   ((claim_C7 ⟨"pkg", "1.0.0-7", some "npm", "npm"⟩ {} { defaultTag := some "7" }
     (fun _ => true) rfl rfl).2.2.1 rfl).1 rfl⟩

/-- C8: `calculateNewVersion` fails with an invalid-version error exactly when
the (truthy) explicit version is invalid or, absent a truthy explicit
version, the current version is invalid; every error message contains the
offending version string; and on any calculation error `updatePackageVersion`
produces no effect at all — no manifest write and no git command — only the
propagated error. -/
theorem claim_C8 (old : String) (o : VersionOptions) (cfg : VersionConfig) :
    ((∃ e, calculateNewVersion old o cfg = Except.error e ∧ e.isInvalidVersion = true) ↔
      ((strTruthy o.version = true ∧ semverValid (o.version.getD "") = false) ∨
       (strTruthy o.version = false ∧ semverValid old = false))) ∧
    (∀ e, calculateNewVersion old o cfg = Except.error e →
      ∃ p q, e.message = p ++ e.offending ++ q) ∧
    (old ≠ "" → ∀ e, calculateNewVersion old o cfg = Except.error e →
      ∀ execOk, updatePackageVersion (some old) o cfg execOk =
        ([], Except.error (UpdateError.calcErr e))) := by
  refine ⟨⟨?_, ?_⟩, ?_, ?_⟩
  · rintro ⟨e, he, hinv⟩
    by_cases hx : strTruthy o.version = true
    · left
      refine ⟨hx, ?_⟩
      by_cases hvv : semverValid (o.version.getD "") = true
      · exfalso
        simp [calculateNewVersion, hx, hvv] at he
      · simpa using hvv
    · right
      have hx2 : strTruthy o.version = false := by simpa using hx
      refine ⟨hx2, ?_⟩
      by_cases hv : semverValid old = true
      · exfalso
        obtain ⟨v, hp⟩ := semverValid_exists hv
        rw [calculateNewVersion_dispatch hx2 hv] at he
        cases hrel : relIsPre (releaseTypeOf old o) with
        | true =>
          rw [hrel] at he
          simp [semverInc_eq hp] at he
        | false =>
          rw [hrel] at he
          simp [semverInc_eq hp] at he
      · simpa using hv
  · rintro (⟨hx, hvv⟩ | ⟨hx, hv⟩)
    · refine ⟨VersionError.invalidExplicit (o.version.getD ""), ?_, rfl⟩
      simp [calculateNewVersion, hx, hvv]
    · refine ⟨VersionError.invalidCurrent old, ?_, rfl⟩
      simp [calculateNewVersion, hx, hv]
  · intro e _
    cases e with
    | invalidExplicit v =>
      exact ⟨"Invalid version format: ",
        ". Please use semantic versioning format (e.g., 1.0.0, 2.1.0-alpha.1)", rfl⟩
    | invalidCurrent v =>
      exact ⟨"Invalid current version format: ",
        ". Please fix version in package.json to use semantic versioning format (e.g., 1.0.0)",
        rfl⟩
    | incFailed v =>
      exact ⟨"Failed to calculate new version from ",
        ". Please check your version increment options.", rfl⟩
  · intro hne e he execOk
    have htr : strTruthy (some old) = true := by
      unfold strTruthy
      simp [hne]
    simp [updatePackageVersion, htr, he]

theorem claim_C8_witness :
    (∃ e, calculateNewVersion "bogus" {} {} = Except.error e ∧
      e.isInvalidVersion = true) ∧
    updatePackageVersion (some "bogus") {} {} (fun _ => true) =
      ([], Except.error (UpdateError.calcErr (VersionError.invalidCurrent "bogus"))) :=
  ⟨(claim_C8 "bogus" {} {}).1.mpr (Or.inr ⟨rfl, by decide⟩),
   (claim_C8 "bogus" {} {}).2.2 (by decide) (VersionError.invalidCurrent "bogus") rfl
     (fun _ => true)⟩

/-- C9: publish-tag resolution is total and deterministic — for every input
the pure function `determinePublishTag` returns one of the documented
outcomes (the explicit tag, the stable tag or its `"latest"` fallback, the
truthy leading prerelease component, or the default tag or its `"edge"`
fallback); there is no error path. -/
theorem claim_C9 (v : String) (o : PublishOptions) (c : PublishConfig) :
    determinePublishTag v o c = o.tag.getD "" ∨
    determinePublishTag v o c = orElseStr c.stableTag "latest" ∨
    (∃ pre t, prereleaseOf v = some pre ∧ jsTruthyHead pre = some t ∧
      determinePublishTag v o c = t) ∨
    determinePublishTag v o c = orElseStr c.defaultTag "edge" := by
  by_cases h1 : strTruthy o.tag = true
  · left
    simp [determinePublishTag, h1]
  · have h1f : strTruthy o.tag = false := by simpa using h1
    by_cases h2 : (o.stable || o.latest) = true
    · right
      left
      simp [determinePublishTag, h1f, h2]
    · have h2f : (o.stable || o.latest) = false := by simpa using h2
      cases hpre : prereleaseOf v with
      | none =>
        right
        left
        simp [determinePublishTag, h1f, h2f, hpre]
      | some pre =>
        cases hhead : jsTruthyHead pre with
        | none =>
          right
          right
          right
          simp [determinePublishTag, h1f, h2f, hpre, hhead]
        | some t =>
          right
          right
          left
          refine ⟨pre, t, rfl, hhead, ?_⟩
          simp [determinePublishTag, h1f, h2f, hpre, hhead]

/-- C10: when the leading prerelease component of `oldVersion` is numeric it
is not used as the prerelease identifier (the source keeps it only when
`typeof` is string), so the identifier falls back to the configured
`prereleaseId` or `"edge"`; e.g. `1.2.3-1` and `1.2.3-0.beta` both bump to
`1.2.3-edge.0` under an empty config. -/
theorem claim_C10 (old : String) (o : VersionOptions) (cfg : VersionConfig)
    (hpid : strTruthy o.preid = false) :
    (∀ n rest, prereleaseOf old = some (PreId.num n :: rest) →
      preidOf old o cfg = orElseStr cfg.prereleaseId "edge") ∧
    (calculateNewVersion "1.2.3-1" {} {} = Except.ok "1.2.3-edge.0" ∧
    calculateNewVersion "1.2.3-0.beta" {} {} = Except.ok "1.2.3-edge.0") := by
  refine ⟨?_, rfl, rfl⟩
  intro n rest hpre
  unfold preidOf
  rw [orElseStr_falsy hpid]
  have hh : preHeadString (prereleaseOf old) = none := by
    rw [hpre]
    rfl
  rw [hh]
  rfl

theorem claim_C10_witness :
    strTruthy (none : Option String) = false ∧
    preidOf "1.2.3-1" {} {} = orElseStr none "edge" ∧
    calculateNewVersion "1.2.3-1" {} {} = Except.ok "1.2.3-edge.0" :=
  ⟨rfl,
   (claim_C10 "1.2.3-1" {} {} rfl).1 1 [] rfl,
   (claim_C10 "1.2.3-1" {} {} rfl).2.1⟩
